import Mathlib

/-!
Shallow embedding of the media recording / playback / analysis state machine
of this repository, together with theorems checking the specification claims
against it.

The embedding covers three components and one module:

* `MediaRec`  — the combined audio/video recorder component
  (`MediaRecorder` in the source): chunk accumulation and the `onstop`
  finalization, the guarded `startRecording` acquire retry, the
  `isPlaybackInProgress`-guarded `togglePlayback`, `handleSliderChange`,
  `handleVolumeChange`, `toggleMute`, `resetRecording`, the analysis
  simulation, and `performTranscription`.
* `AudioRec`  — the audio-only recorder component (`AudioRecorder` in the
  source), which shares the playback helpers but has an unguarded acquire
  retry and a `resetRecording` that does not tear down timers or tracks.
* `Webcam`    — the webcam recorder component (`WebcamRecorder` in the
  source), whose `togglePlayback` has no busy flag, plus its `analyzeVideo`
  metrics.
* `ClientTranscription` — the whisper transcription module:
  `initWhisper` with its module-level `loadPromise`, `transcribeAudioClient`
  and `transcribeAudioFallback`.

Numbers that the source handles as JS numbers (times, volumes, metric
percentages) are modelled as rationals; byte sizes and counters as naturals.
Promises are modelled by identifiers plus their settled outcome, and the
two-phase `await` structure of `togglePlayback` is modelled by an explicit
begin/settle pair of transition functions.
-/

namespace MediaRec

/-- Media type of the combined recorder, `"audio" | "video"` in the source. -/
inductive MediaType
  | audio
  | video
deriving DecidableEq, Repr

/-- Name of a media type as interpolated into user-facing messages. -/
def MediaType.name : MediaType → String
  | .audio => "audio"
  | .video => "video"

/-- The `ondataavailable` handler: a chunk (represented by its byte size) is
appended to the accumulated chunk list only when it is non-empty
(`e.data && e.data.size > 0` in the source). -/
def ondataavailable (chunks : List Nat) (size : Nat) : List Nat :=
  if 0 < size then chunks ++ [size] else chunks

/-- Chunk list accumulated from a sequence of `ondataavailable` events, each
event carrying the byte size of the offered chunk. -/
def receiveChunks (events : List Nat) : List Nat :=
  events.foldl ondataavailable []

/-- Outcome of the `onstop` finalization callback: the recorded blob (by its
byte size) if one was produced, and the error message if one was set. -/
structure StopOutcome where
  recordedBlob : Option Nat
  error : Option String
deriving DecidableEq, Repr

/-- The `onstop` finalization callback of `startRecording`: with zero
accumulated chunks it sets an error and returns without producing a blob;
otherwise it concatenates the chunks into one blob, and a zero-byte blob is
likewise rejected with an error and no blob. -/
def onstop (mt : MediaType) (chunks : List Nat) : StopOutcome :=
  if chunks = [] then
    { recordedBlob := none
      error := some ("No " ++ mt.name ++ " data was recorded. Please try again.") }
  else
    let blobSize := chunks.foldl (· + ·) 0
    if blobSize = 0 then
      { recordedBlob := none
        error := some ("Recorded " ++ mt.name ++ " is empty. Please try again.") }
    else
      { recordedBlob := some blobSize, error := none }

/-- Playback volume state of the combined recorder: the `volume`, `isMuted`
and `previousVolume` React states plus the volume of the underlying media
element. -/
structure VolumeState where
  volume : ℚ
  isMuted : Bool
  previousVolume : ℚ
  elementVolume : ℚ
deriving DecidableEq, Repr

/-- The `handleVolumeChange` handler: stores the new volume in the React state
and on the media element, and clears `isMuted` only when the new volume is
positive. -/
def handleVolumeChange (s : VolumeState) (newVolume : ℚ) : VolumeState :=
  { s with
    volume := newVolume
    elementVolume := newVolume
    isMuted := if 0 < newVolume then false else s.isMuted }

/-- The `toggleMute` handler: when muted it restores `previousVolume` to the
element and the React state and clears `isMuted`; when unmuted it remembers
the current volume in `previousVolume`, silences the element and the React
state, and sets `isMuted`. -/
def toggleMute (s : VolumeState) : VolumeState :=
  if s.isMuted then
    { s with
      elementVolume := s.previousVolume
      volume := s.previousVolume
      isMuted := false }
  else
    { s with
      previousVolume := s.volume
      elementVolume := 0
      volume := 0
      isMuted := true }

/-- Seek-relevant playback state: the clip duration, the current time held by
the media element, and the `currentTime` React state. -/
structure SeekState where
  duration : ℚ
  elementTime : ℚ
  currentTime : ℚ
deriving DecidableEq, Repr

/-- Platform semantics of assigning `HTMLMediaElement.currentTime`: the media
element clamps the requested time into the seekable range from 0 to the
duration. -/
def elementSeek (duration t : ℚ) : ℚ :=
  max 0 (min t duration)

/-- The `handleSliderChange` handler: assigns the raw slider value to the
media element (whose setter clamps it) and stores the same raw value,
unclamped, in the `currentTime` React state. -/
def handleSliderChange (s : SeekState) (v : ℚ) : SeekState :=
  { s with
    elementTime := elementSeek s.duration v
    currentTime := v }

end MediaRec

namespace AudioRec

/-- The `ondataavailable` handler of the audio-only recorder: identical guard,
a chunk is appended only when non-empty. -/
def ondataavailable (chunks : List Nat) (size : Nat) : List Nat :=
  if 0 < size then chunks ++ [size] else chunks

/-- Chunk list accumulated from a sequence of `ondataavailable` events. -/
def receiveChunks (events : List Nat) : List Nat :=
  events.foldl ondataavailable []

/-- The `onstop` callback of the audio-only recorder, with its fixed audio
error messages. -/
def onstop (chunks : List Nat) : MediaRec.StopOutcome :=
  if chunks = [] then
    { recordedBlob := none
      error := some "No audio data was recorded. Please try again." }
  else
    let blobSize := chunks.foldl (· + ·) 0
    if blobSize = 0 then
      { recordedBlob := none
        error := some "Recorded audio is empty. Please try again." }
    else
      { recordedBlob := some blobSize, error := none }

/-- The `handleVolumeChange` handler of the audio-only recorder, identical in
structure to the combined recorder. -/
def handleVolumeChange (s : MediaRec.VolumeState) (newVolume : ℚ) : MediaRec.VolumeState :=
  { s with
    volume := newVolume
    elementVolume := newVolume
    isMuted := if 0 < newVolume then false else s.isMuted }

/-- The `toggleMute` handler of the audio-only recorder. -/
def toggleMute (s : MediaRec.VolumeState) : MediaRec.VolumeState :=
  if s.isMuted then
    { s with
      elementVolume := s.previousVolume
      volume := s.previousVolume
      isMuted := false }
  else
    { s with
      previousVolume := s.volume
      elementVolume := 0
      volume := 0
      isMuted := true }

/-- The `handleSliderChange` handler of the audio-only recorder: the raw
slider value goes to the element (clamped by the platform) and unclamped into
the `currentTime` React state. -/
def handleSliderChange (s : MediaRec.SeekState) (v : ℚ) : MediaRec.SeekState :=
  { s with
    elementTime := MediaRec.elementSeek s.duration v
    currentTime := v }

end AudioRec

namespace MediaRec

/-- State of one `startRecording` attempt of the combined recorder: whether a
stream is currently held, how many acquire attempts have run, how many
re-invocations of `startRecording` have been scheduled so far, how many
scheduled invocations have not yet executed, and whether an error message has
been set. The external `start()` call is one pending invocation. -/
structure StartState where
  hasStream : Bool
  attempt : Nat
  reinvocations : Nat
  pending : Nat
  errorSet : Bool
deriving DecidableEq, Repr

/-- One scheduler cycle of the combined recorder: the next pending invocation
of `startRecording`, if any, executes. With a stream held it proceeds to
actual recording. With no stream it runs `startMediaStream` (attempt number
`s.attempt`, which on failure sets an error message and leaves no stream) and
then schedules a re-invocation of `startRecording` **only if** the stream was
actually acquired (`if (streamRef.current) setTimeout(startRecording, 500)`
in the source). -/
def startRecordingCycle (acquireOk : Nat → Bool) (s : StartState) : StartState :=
  if s.pending = 0 then
    s
  else
    let s0 := { s with pending := s.pending - 1 }
    if s0.hasStream then
      s0
    else
      { s0 with
        hasStream := acquireOk s0.attempt
        attempt := s0.attempt + 1
        reinvocations := s0.reinvocations + (if acquireOk s0.attempt then 1 else 0)
        pending := s0.pending + (if acquireOk s0.attempt then 1 else 0)
        errorSet := s0.errorSet || !(acquireOk s0.attempt) }

/-- Run `n` scheduler cycles of the combined recorder retry loop. -/
def runStart (acquireOk : Nat → Bool) : Nat → StartState → StartState
  | 0, s => s
  | n + 1, s => runStart acquireOk n (startRecordingCycle acquireOk s)

end MediaRec

namespace AudioRec

/-- One scheduler cycle of the audio-only recorder: the next pending
invocation of `startRecording`, if any, executes. With no stream it runs
`startMicrophone` (which on failure only sets an error message and never
rejects) and then **unconditionally** schedules a re-invocation of
`startRecording` in its `.then` continuation
(`startMicrophone().then(() => setTimeout(() => startRecording(), 1000))` in
the source, with no stream check before the retry). -/
def startRecordingCycle (acquireOk : Nat → Bool) (s : MediaRec.StartState) : MediaRec.StartState :=
  if s.pending = 0 then
    s
  else
    let s0 := { s with pending := s.pending - 1 }
    if s0.hasStream then
      s0
    else
      { s0 with
        hasStream := acquireOk s0.attempt
        attempt := s0.attempt + 1
        reinvocations := s0.reinvocations + 1
        pending := s0.pending + 1
        errorSet := s0.errorSet || !(acquireOk s0.attempt) }

/-- Run `n` scheduler cycles of the audio-only recorder retry loop. -/
def runStart (acquireOk : Nat → Bool) : Nat → MediaRec.StartState → MediaRec.StartState
  | 0, s => s
  | n + 1, s => runStart acquireOk n (startRecordingCycle acquireOk s)

end AudioRec

namespace MediaRec

/-- Tracked resources of the combined recorder: the recording flag, the two
interval timers, whether the stream reference holds a live stream, how many
previously held streams were dropped without stopping their tracks, the
object URL, and the playing flag. -/
structure ResourceState where
  isRecording : Bool
  clockTimerActive : Bool
  playbackTimerActive : Bool
  streamLive : Bool
  orphanedStreams : Nat
  mediaUrlSet : Bool
  isPlaying : Bool
deriving DecidableEq, Repr

/-- The `startMediaStream` acquire of the combined recorder: on success the
stream reference holds a fresh live stream; a stream it still held would be
overwritten without its tracks being stopped. On failure an error is shown
and no stream is held. -/
def startMediaStream (acquireOk : Bool) (s : ResourceState) : ResourceState :=
  if acquireOk then
    { s with
      streamLive := true
      orphanedStreams := s.orphanedStreams + (if s.streamLive then 1 else 0) }
  else
    s

/-- The combined recorder `startRecording` on a held stream: clears the chunk
buffer, starts the platform recorder, sets the recording flag and starts the
one-second recording clock interval. -/
def startRecordingRes (s : ResourceState) : ResourceState :=
  if s.streamLive then
    { s with isRecording := true, clockTimerActive := true }
  else
    s

/-- The combined recorder `stopRecording`: stops the platform recorder,
clears the recording flag and clears both interval timers via `clearTimers`. -/
def stopRecordingRes (s : ResourceState) : ResourceState :=
  if s.isRecording then
    { s with
      isRecording := false
      clockTimerActive := false
      playbackTimerActive := false }
  else
    s

/-- The combined recorder `resetRecording`: stops an ongoing recording, pauses
playback, stops every held stream track (`stopMediaTracks`), clears both
timers (`clearTimers`), revokes the outstanding object URL
(`revokeMediaUrl`), resets the derived state, and finally re-acquires a fresh
stream via `startMediaStream`. -/
def resetRecording (acquireOk : Bool) (s : ResourceState) : ResourceState :=
  let s1 := stopRecordingRes s
  let s2 :=
    { s1 with
      streamLive := false
      clockTimerActive := false
      playbackTimerActive := false
      mediaUrlSet := false
      isPlaying := false }
  startMediaStream acquireOk s2

end MediaRec

namespace AudioRec

/-- The `startMicrophone` acquire of the audio-only recorder: on success the
stream reference is overwritten with a fresh live stream, without the
previously held tracks being stopped first; on failure an error is shown. -/
def startMicrophone (acquireOk : Bool) (s : MediaRec.ResourceState) : MediaRec.ResourceState :=
  if acquireOk then
    { s with
      streamLive := true
      orphanedStreams := s.orphanedStreams + (if s.streamLive then 1 else 0) }
  else
    s

/-- The audio-only recorder `startRecording` on a held stream: starts the
platform recorder, sets the recording flag and starts the one-second
recording clock interval. -/
def startRecordingRes (s : MediaRec.ResourceState) : MediaRec.ResourceState :=
  if s.streamLive then
    { s with isRecording := true, clockTimerActive := true }
  else
    s

/-- The audio-only recorder `stopRecording`: stops the platform recorder,
clears the recording flag, clears the recording clock interval and stops the
held stream tracks. It does not touch the playback polling timer. -/
def stopRecordingRes (s : MediaRec.ResourceState) : MediaRec.ResourceState :=
  if s.isRecording then
    { s with
      isRecording := false
      clockTimerActive := false
      streamLive := false }
  else
    s

/-- The audio-only recorder `resetRecording`: pauses playback, revokes the
outstanding object URL, clears the recorded blob and the derived state, and
calls `startMicrophone` again. It does **not** stop an ongoing recording, does
not clear either interval timer, and does not stop the previously held stream
tracks before `startMicrophone` overwrites the stream reference. -/
def resetRecording (acquireOk : Bool) (s : MediaRec.ResourceState) : MediaRec.ResourceState :=
  let s1 := { s with mediaUrlSet := false, isPlaying := false }
  startMicrophone acquireOk s1

end AudioRec

namespace MediaRec

/-- Playback state of the combined recorder around `togglePlayback`: whether a
media element and URL are available, the playing flag, the
`isPlaybackInProgress` busy flag, the operation currently settling (play or
pause) if any, and counters of play and pause requests issued to the media
element. -/
structure PlaybackState where
  hasMedia : Bool
  isPlaying : Bool
  isPlaybackInProgress : Bool
  pendingOp : Option Bool
  playRequests : Nat
  pauseRequests : Nat
  playbackTimerActive : Bool
deriving DecidableEq, Repr

/-- Synchronous prefix of the combined recorder `togglePlayback`, up to its
first `await`: the guard returning immediately while `isPlaybackInProgress`
is set, the media availability check, setting the busy flag, and issuing
the pause or play request whose settling is still pending. -/
def togglePlaybackBegin (s : PlaybackState) : PlaybackState :=
  if s.isPlaybackInProgress then
    s
  else if !s.hasMedia then
    s
  else if s.isPlaying then
    { s with
      isPlaybackInProgress := true
      pendingOp := some false
      pauseRequests := s.pauseRequests + 1 }
  else
    { s with
      isPlaybackInProgress := true
      pendingOp := some true
      playRequests := s.playRequests + 1 }

/-- Completion of the settling `togglePlayback` operation: after the awaited
pause delay the playing flag is cleared and the polling timer cancelled;
after the awaited play promise the playing flag is set and the polling timer
started; the `finally` block clears the busy flag. -/
def togglePlaybackSettle (s : PlaybackState) : PlaybackState :=
  match s.pendingOp with
  | none => s
  | some false =>
      { s with
        isPlaying := false
        playbackTimerActive := false
        pendingOp := none
        isPlaybackInProgress := false }
  | some true =>
      { s with
        isPlaying := true
        playbackTimerActive := true
        pendingOp := none
        isPlaybackInProgress := false }

end MediaRec

namespace Webcam

/-- Playback state of the webcam recorder around `togglePlayback`: there is no
busy flag; only a pending play promise, the playing flag, and request
counters. -/
structure PlaybackState where
  hasMedia : Bool
  isPlaying : Bool
  pendingPlay : Bool
  playRequests : Nat
  pauseRequests : Nat
  playbackTimerActive : Bool
deriving DecidableEq, Repr

/-- Synchronous prefix of the webcam recorder `togglePlayback`: no guard is
checked. The pause branch completes synchronously (pause, clear flag, cancel
timer); the play branch issues a play request whose promise is still
settling. -/
def togglePlaybackBegin (s : PlaybackState) : PlaybackState :=
  if !s.hasMedia then
    s
  else if s.isPlaying then
    { s with
      isPlaying := false
      playbackTimerActive := false
      pauseRequests := s.pauseRequests + 1 }
  else
    { s with
      pendingPlay := true
      playRequests := s.playRequests + 1 }

/-- Completion of a settling webcam play request: the playing flag is set and
the polling timer started. -/
def togglePlaybackSettle (s : PlaybackState) : PlaybackState :=
  if s.pendingPlay then
    { s with
      isPlaying := true
      playbackTimerActive := true
      pendingPlay := false }
  else
    s

end Webcam

namespace MediaRec

/-- One emitted analysis sample of the combined recorder. -/
structure AnalysisMetrics where
  volume : ℚ
  pace : ℚ
  clarity : ℚ
  confidence : ℚ
  facialExpressions : ℚ
  eyeContact : ℚ
deriving DecidableEq, Repr

/-- The `timeBasedFactor` of the analysis simulation:
`Math.min(recordingTime / 30, 1)`. -/
def timeBasedFactor (recordingTime : ℚ) : ℚ :=
  min (recordingTime / 30) 1

/-- One tick of `startAnalysisSimulation`: the metrics computed from the
elapsed recording time and the `randomFactor` sampled for this tick. -/
def updateAnalysis (mediaType : MediaType) (recordingTime randomFactor : ℚ) :
    AnalysisMetrics :=
  let tf := timeBasedFactor recordingTime
  { volume := min (60 + recordingTime * (3 / 2) + randomFactor * 20) 100
    pace := min (50 + tf * 40 + randomFactor * 10) 100
    clarity := min (70 + tf * 20 + randomFactor * 10) 100
    confidence := min (40 + tf * 50 + randomFactor * 10) 100
    facialExpressions :=
      if mediaType = .video then min (60 + tf * 30 + randomFactor * 10) 100 else 0
    eyeContact :=
      if mediaType = .video then min (70 + tf * 20 + randomFactor * 10) 100 else 0 }

end MediaRec

namespace Webcam

/-- One tick of the webcam recorder `analyzeVideo` simulation: each field
draws its own `Math.random()` sample, passed here as `r1 .. r4`. -/
def analyzeVideo (recordingTime r1 r2 r3 r4 : ℚ) : MediaRec.AnalysisMetrics :=
  { volume := min (30 + r1 * 50) 100
    pace := min (recordingTime / 15 * 100) 100
    clarity := min (40 + r2 * 40) 100
    confidence := min (50 + recordingTime / 30 * 30) 100
    facialExpressions := min (40 + r3 * 40) 100
    eyeContact := min (60 + r4 * 30) 100 }

end Webcam

namespace ClientTranscription

/-- The fixed failure string shared by every transcription degradation path. -/
def failureText : String :=
  "Transcription failed. Please try again or type your response manually."

/-- Environment of one `transcribeAudioClient` run: whether the awaited
`initWhisper` resolves, whether the transformers library handle is set, and
the outcome of the whisper pipeline (a thrown error or the transcription
text). -/
structure ClientEnv where
  initOk : Bool
  libLoaded : Bool
  pipelineOutcome : Except String String
deriving Repr

/-- Body of `transcribeAudioClient` before its outer catch: a failed
`initWhisper` rejects, a missing library throws, a pipeline error is rethrown
by the inner catch, and an empty pipeline text falls back to a placeholder
(`result.text || "No transcription available."`). -/
def transcribeAudioClientBody (env : ClientEnv) : Except String String :=
  if !env.initOk then
    Except.error "Whisper initialization failed"
  else if !env.libLoaded then
    Except.error "Transformers library not loaded"
  else
    match env.pipelineOutcome with
    | Except.error e => Except.error e
    | Except.ok t => Except.ok (if t = "" then "No transcription available." else t)

/-- `transcribeAudioClient` from the source: its outer catch converts any
thrown error into the fixed failure string, so the function always returns a
string and never rejects past its boundary. -/
def transcribeAudioClient (env : ClientEnv) : String :=
  match transcribeAudioClientBody env with
  | Except.ok t => t
  | Except.error _ => failureText

/-- Environment of one `transcribeAudioFallback` run: whether the Web Speech
API exists, whether playing the blob back succeeds, whether recognition
raises an error event, and the transcript accumulated from final recognition
results by the time recognition ends. -/
structure FallbackEnv where
  speechApiAvailable : Bool
  playOk : Bool
  recognitionError : Bool
  transcript : String
deriving DecidableEq, Repr

/-- `transcribeAudioFallback` from the source: every path resolves with a
string (missing API, rejected playback, recognition error event, empty or
non-empty accumulated transcript); the promise never rejects. -/
def transcribeAudioFallback (env : FallbackEnv) : String :=
  if !env.speechApiAvailable then
    "Your browser does not support speech recognition. Please type your response manually."
  else if !env.playOk then
    failureText
  else if env.recognitionError then
    failureText
  else if env.transcript = "" then
    failureText
  else
    env.transcript

end ClientTranscription

namespace MediaRec

/-- `performTranscription` of the combined recorder: when whisper is supported
it awaits `transcribeAudioClient`, whose result is matched through the
try/catch of the source — the catch arm (which would invoke
`transcribeAudioFallback`) is reachable only on a rejection, and
`transcribeAudioClient` always returns a string. When whisper is unsupported
it invokes `transcribeAudioFallback` directly. The second component records
whether the fallback path was invoked. The outer catch of
`performTranscription` would map any escaped error to the fixed failure
string, so the adapter never throws past its boundary. -/
def performTranscription (whisperSupported : Bool)
    (cenv : ClientTranscription.ClientEnv) (fenv : ClientTranscription.FallbackEnv) :
    String × Bool :=
  if whisperSupported then
    match (Except.ok (ClientTranscription.transcribeAudioClient cenv) :
        Except String String) with
    | Except.ok t => (t, false)
    | Except.error _ => (ClientTranscription.transcribeAudioFallback fenv, true)
  else
    (ClientTranscription.transcribeAudioFallback fenv, true)

end MediaRec

namespace ClientTranscription

/-- Settled outcome of a promise. -/
inductive POutcome
  | resolved
  | rejected
deriving DecidableEq, Repr

/-- Module-level state of the whisper loader: the `isWhisperLoaded` flag, the
`transformersLib` handle (by presence), the cached `loadPromise` (by promise
identifier and settled outcome), the number of remote script load attempts,
and a counter for allocating fresh promise identifiers. -/
structure WhisperState where
  isWhisperLoaded : Bool
  hasTransformersLib : Bool
  loadPromise : Option (Nat × POutcome)
  scriptLoadAttempts : Nat
  nextPromiseId : Nat
deriving DecidableEq, Repr

/-- Module state at page load: nothing loaded, no cached promise. -/
def initialWhisperState : WhisperState :=
  { isWhisperLoaded := false
    hasTransformersLib := false
    loadPromise := none
    scriptLoadAttempts := 0
    nextPromiseId := 0 }

/-- Environment of one `initWhisper` call: whether a browser environment is
present, whether the transformers global is already defined, whether the
remote script load succeeds, and whether the global is defined once the
script has loaded. -/
structure WhisperEnv where
  inBrowser : Bool
  transformersAlreadyGlobal : Bool
  scriptLoads : Bool
  transformersGlobalAfterLoad : Bool
deriving DecidableEq, Repr

/-- `initWhisper` from the source: with the library loaded it returns
`Promise.resolve()` — a freshly allocated, already resolved promise; with a
cached `loadPromise` it returns that same promise unchanged; otherwise it
builds the promise once: rejecting outside a browser, resolving immediately
when the global is already present, and otherwise attempting the remote
script load exactly once, whose `onload` sets the loaded flag and the library
handle and whose `onerror` rejects. `loadPromise` is assigned here and never
cleared anywhere in the module. -/
def initWhisper (env : WhisperEnv) (s : WhisperState) : WhisperState × (Nat × POutcome) :=
  if s.isWhisperLoaded && s.hasTransformersLib then
    ({ s with nextPromiseId := s.nextPromiseId + 1 }, (s.nextPromiseId, POutcome.resolved))
  else
    match s.loadPromise with
    | some p => (s, p)
    | none =>
        if !env.inBrowser then
          let p := (s.nextPromiseId, POutcome.rejected)
          ({ s with loadPromise := some p, nextPromiseId := s.nextPromiseId + 1 }, p)
        else if env.transformersAlreadyGlobal then
          let p := (s.nextPromiseId, POutcome.resolved)
          ({ s with
             isWhisperLoaded := true
             hasTransformersLib := true
             loadPromise := some p
             nextPromiseId := s.nextPromiseId + 1 }, p)
        else
          let p := (s.nextPromiseId, if env.scriptLoads then POutcome.resolved else POutcome.rejected)
          ({ s with
             isWhisperLoaded := env.scriptLoads
             hasTransformersLib := env.scriptLoads && env.transformersGlobalAfterLoad
             loadPromise := some p
             scriptLoadAttempts := s.scriptLoadAttempts + 1
             nextPromiseId := s.nextPromiseId + 1 }, p)

end ClientTranscription


namespace MediaRec

/-- The accumulated chunk list is exactly the subsequence of positive-size
events, in arrival order. -/
theorem receiveChunks_eq_filter (events : List Nat) :
    receiveChunks events = events.filter (fun e => decide (0 < e)) := by
  have h : ∀ (l : List Nat) (acc : List Nat),
      l.foldl ondataavailable acc = acc ++ l.filter (fun e => decide (0 < e)) := by
    intro l
    induction l with
    | nil => intro acc; simp
    | cons a t ih =>
      intro acc
      by_cases ha : 0 < a
      · simp [ondataavailable, ha, ih, List.filter_cons]
      · simp [ondataavailable, ha, ih, List.filter_cons]
  simpa [receiveChunks] using h events []

/-- A fold-sum starting from a positive accumulator, or over a list holding a
positive element, is positive. -/
theorem foldl_add_pos (l : List Nat) (acc : Nat)
    (h : 0 < acc ∨ ∃ x ∈ l, 0 < x) : 0 < l.foldl (· + ·) acc := by
  induction l generalizing acc with
  | nil =>
    simp only [List.foldl_nil]
    rcases h with h | ⟨x, hx, _⟩
    · exact h
    · simp at hx
  | cons a t ih =>
    simp only [List.foldl_cons]
    apply ih
    rcases h with h | ⟨x, hx, hpos⟩
    · left; omega
    · rcases List.mem_cons.mp hx with rfl | hxt
      · left; omega
      · right; exact ⟨x, hxt, hpos⟩

/-- Specification of `onstop` applied to the chunks accumulated from a stream
of `ondataavailable` events: the blob exists iff some event was non-empty,
zero non-empty events set the empty-recording message, and a produced blob
is positive in size. -/
theorem onstop_spec (events : List Nat) (mt : MediaType) :
    ((onstop mt (receiveChunks events)).recordedBlob ≠ none ↔ ∃ e ∈ events, 0 < e)
    ∧ ((∀ e ∈ events, e = 0) →
        (onstop mt (receiveChunks events)).recordedBlob = none ∧
        (onstop mt (receiveChunks events)).error =
          some ("No " ++ mt.name ++ " data was recorded. Please try again."))
    ∧ (∀ b, (onstop mt (receiveChunks events)).recordedBlob = some b → 0 < b) := by
  have hfil := receiveChunks_eq_filter events
  have hmem : ∀ x ∈ receiveChunks events, 0 < x := by
    intro x hx
    rw [hfil] at hx
    simpa using (List.mem_filter.mp hx).2
  have hsub : ∀ x ∈ receiveChunks events, x ∈ events := by
    intro x hx
    rw [hfil] at hx
    exact (List.mem_filter.mp hx).1
  have hnil : receiveChunks events = [] ↔ ¬ ∃ e ∈ events, 0 < e := by
    rw [hfil]
    simp [List.filter_eq_nil_iff]
  by_cases hempty : receiveChunks events = []
  · unfold onstop
    rw [if_pos hempty]
    refine ⟨?_, fun _ => ⟨rfl, rfl⟩, ?_⟩
    · simp only [ne_eq, not_true_eq_false, false_iff]
      exact hnil.mp hempty
    · intro b hb
      simp at hb
  · have hpos : 0 < (receiveChunks events).foldl (· + ·) 0 := by
      apply foldl_add_pos
      right
      rcases List.exists_mem_of_ne_nil _ hempty with ⟨x, hx⟩
      exact ⟨x, hx, hmem x hx⟩
    unfold onstop
    rw [if_neg hempty]
    simp only [if_neg (Nat.pos_iff_ne_zero.mp hpos)]
    refine ⟨?_, ?_, ?_⟩
    · simp only [ne_eq, reduceCtorEq, not_false_eq_true, true_iff]
      rcases List.exists_mem_of_ne_nil _ hempty with ⟨x, hx⟩
      exact ⟨x, hsub x hx, hmem x hx⟩
    · intro hall
      exact absurd (hnil.mpr (by rintro ⟨e, he, hpe⟩; have := hall e he; omega)) hempty
    · intro b hb
      simp only [Option.some.injEq] at hb
      omega

end MediaRec

/-- C1: for every recording session, after stop the finalized result blob is
non-null iff at least one non-empty data chunk was received before stop; with
zero (non-empty) chunks the session sets the empty-recording error message
and produces no blob; and a produced blob is never empty. Holds for the
combined recorder at either media type and for the audio-only recorder. -/
theorem claim1_resultBlob_iff_nonempty_chunk (events : List Nat) (mt : MediaRec.MediaType) :
    ((MediaRec.onstop mt (MediaRec.receiveChunks events)).recordedBlob ≠ none ↔
      ∃ e ∈ events, 0 < e)
    ∧ ((∀ e ∈ events, e = 0) →
        (MediaRec.onstop mt (MediaRec.receiveChunks events)).recordedBlob = none ∧
        (MediaRec.onstop mt (MediaRec.receiveChunks events)).error =
          some ("No " ++ mt.name ++ " data was recorded. Please try again."))
    ∧ (∀ b, (MediaRec.onstop mt (MediaRec.receiveChunks events)).recordedBlob = some b → 0 < b)
    ∧ ((AudioRec.onstop (AudioRec.receiveChunks events)).recordedBlob ≠ none ↔
      ∃ e ∈ events, 0 < e)
    ∧ ((∀ e ∈ events, e = 0) →
        (AudioRec.onstop (AudioRec.receiveChunks events)).recordedBlob = none ∧
        (AudioRec.onstop (AudioRec.receiveChunks events)).error =
          some "No audio data was recorded. Please try again.")
    ∧ (∀ b, (AudioRec.onstop (AudioRec.receiveChunks events)).recordedBlob = some b → 0 < b) := by
  have hM := MediaRec.onstop_spec events mt
  have hA := MediaRec.onstop_spec events MediaRec.MediaType.audio
  have hAeq : AudioRec.onstop (AudioRec.receiveChunks events)
      = MediaRec.onstop MediaRec.MediaType.audio (MediaRec.receiveChunks events) := rfl
  rw [hAeq]
  exact ⟨hM.1, hM.2.1, hM.2.2, hA.1, hA.2.1, hA.2.2⟩

/-- C1 witness: three 1024-byte chunks yield a 3072-byte blob and no error;
a single empty event yields no blob and the empty-recording error message. -/
theorem claim1_witness :
    (MediaRec.onstop MediaRec.MediaType.audio (MediaRec.receiveChunks [1024, 1024, 1024])).recordedBlob ≠ none
    ∧ (AudioRec.onstop (AudioRec.receiveChunks [0])).recordedBlob = none
    ∧ (AudioRec.onstop (AudioRec.receiveChunks [0])).error =
        some "No audio data was recorded. Please try again." := by
  refine ⟨?_, ?_, ?_⟩
  · exact (claim1_resultBlob_iff_nonempty_chunk [1024, 1024, 1024] MediaRec.MediaType.audio).1.mpr
      ⟨1024, by simp, by norm_num⟩
  · exact ((claim1_resultBlob_iff_nonempty_chunk [0] MediaRec.MediaType.audio).2.2.2.2.1
      (by intro e he; simpa using he)).1
  · exact ((claim1_resultBlob_iff_nonempty_chunk [0] MediaRec.MediaType.audio).2.2.2.2.1
      (by intro e he; simpa using he)).2

/-- C5 counterexample: with a 5 second clip, the seek handler at input
duration + 10 = 15 leaves the `currentTime` React state at 15 — not clamped
to the duration 5, and out of the range up to the duration — in both the
combined and the audio-only recorder. -/
theorem claim5_counterexample :
    (MediaRec.handleSliderChange
      { duration := 5, elementTime := 0, currentTime := 0 } 15).currentTime = 15
    ∧ ¬ (MediaRec.handleSliderChange
      { duration := 5, elementTime := 0, currentTime := 0 } 15).currentTime ≤ 5
    ∧ (AudioRec.handleSliderChange
      { duration := 5, elementTime := 0, currentTime := 0 } 15).currentTime = 15 := by
  refine ⟨rfl, ?_, rfl⟩
  norm_num [MediaRec.handleSliderChange]

/-- C5 amended: the seek handler clamps only the media element time — the
platform clamps the assigned `currentTime` of the element into the range from
0 to the duration — while the `currentTime` React state receives the raw seek
input unclamped. -/
theorem claim5_seek_clamps_element_not_state (s : MediaRec.SeekState) (v : ℚ)
    (hd : 0 ≤ s.duration) :
    (MediaRec.handleSliderChange s v).elementTime = max 0 (min v s.duration)
    ∧ 0 ≤ (MediaRec.handleSliderChange s v).elementTime
    ∧ (MediaRec.handleSliderChange s v).elementTime ≤ s.duration
    ∧ (MediaRec.handleSliderChange s v).currentTime = v
    ∧ (AudioRec.handleSliderChange s v).elementTime = max 0 (min v s.duration)
    ∧ (AudioRec.handleSliderChange s v).currentTime = v := by
  refine ⟨rfl, le_max_left 0 _, ?_, rfl, rfl, rfl⟩
  show max 0 (min v s.duration) ≤ s.duration
  exact max_le hd (min_le_right v s.duration)

/-- C5 witness: instantiating the amended seek theorem at duration 5 and seek
input 15, the element lands on 5 while the state lands on 15. -/
theorem claim5_witness :
    (MediaRec.handleSliderChange
      { duration := 5, elementTime := 0, currentTime := 0 } 15).elementTime = max 0 (min 15 5)
    ∧ (MediaRec.handleSliderChange
      { duration := 5, elementTime := 0, currentTime := 0 } 15).currentTime = 15 := by
  have h := claim5_seek_clamps_element_not_state
    { duration := 5, elementTime := 0, currentTime := 0 } 15 (by norm_num)
  exact ⟨h.1, h.2.2.2.1⟩

/-- C6 counterexample: starting unmuted, setting the volume to 0 does not set
the muted flag — `handleVolumeChange` only ever clears it — in both the
combined and the audio-only recorder. -/
theorem claim6_counterexample :
    (MediaRec.handleVolumeChange
      { volume := 1/2, isMuted := false, previousVolume := 1/2, elementVolume := 1/2 }
      0).isMuted ≠ true
    ∧ (AudioRec.handleVolumeChange
      { volume := 1/2, isMuted := false, previousVolume := 1/2, elementVolume := 1/2 }
      0).isMuted ≠ true := by
  constructor
  · norm_num [MediaRec.handleVolumeChange]
  · norm_num [AudioRec.handleVolumeChange]

/-- C6 amended: `setVolume` with a positive level clears the muted flag, but
`setVolume(0)` leaves the muted flag unchanged (the volume and the element
volume do become 0); the flag is never set by a volume change. -/
theorem claim6_setVolume_mute (s : MediaRec.VolumeState) (v : ℚ) (hv : 0 < v) :
    (MediaRec.handleVolumeChange s v).isMuted = false
    ∧ (MediaRec.handleVolumeChange s 0).isMuted = s.isMuted
    ∧ (MediaRec.handleVolumeChange s v).volume = v
    ∧ (MediaRec.handleVolumeChange s v).elementVolume = v
    ∧ (MediaRec.handleVolumeChange s 0).volume = 0
    ∧ (AudioRec.handleVolumeChange s v).isMuted = false
    ∧ (AudioRec.handleVolumeChange s 0).isMuted = s.isMuted := by
  unfold MediaRec.handleVolumeChange AudioRec.handleVolumeChange
  norm_num [hv]

/-- C6 witness: instantiating the amended volume theorem at level 0.7 from a
half-volume unmuted state. -/
theorem claim6_witness :
    (MediaRec.handleVolumeChange
      { volume := 1/2, isMuted := false, previousVolume := 1/2, elementVolume := 1/2 }
      (7/10)).isMuted = false
    ∧ (MediaRec.handleVolumeChange
      { volume := 1/2, isMuted := false, previousVolume := 1/2, elementVolume := 1/2 }
      0).isMuted = false := by
  have h := claim6_setVolume_mute
    { volume := 1/2, isMuted := false, previousVolume := 1/2, elementVolume := 1/2 }
    (7/10) (by norm_num)
  exact ⟨h.1, h.2.1⟩

/-- C7: starting from any unmuted state, setting the volume to a positive
level v and toggling mute twice restores the React volume and the effective
element volume to exactly v, unmuted — `toggleMute` stores v in
`previousVolume` on mute and restores it on unmute. Holds for the combined
and the audio-only recorder. -/
theorem claim7_volume_mute_roundtrip (s : MediaRec.VolumeState) (v : ℚ)
    (hm : s.isMuted = false) (h0 : 0 < v) (h1 : v ≤ 1) :
    (MediaRec.toggleMute (MediaRec.toggleMute (MediaRec.handleVolumeChange s v))).volume = v
    ∧ (MediaRec.toggleMute (MediaRec.toggleMute (MediaRec.handleVolumeChange s v))).elementVolume = v
    ∧ (MediaRec.toggleMute (MediaRec.toggleMute (MediaRec.handleVolumeChange s v))).isMuted = false
    ∧ (AudioRec.toggleMute (AudioRec.toggleMute (AudioRec.handleVolumeChange s v))).volume = v
    ∧ (AudioRec.toggleMute (AudioRec.toggleMute (AudioRec.handleVolumeChange s v))).elementVolume = v
    ∧ (AudioRec.toggleMute (AudioRec.toggleMute (AudioRec.handleVolumeChange s v))).isMuted = false := by
  unfold MediaRec.toggleMute AudioRec.toggleMute
    MediaRec.handleVolumeChange AudioRec.handleVolumeChange
  norm_num [h0]

/-- C7 witness: the round-trip at volume 0.7 from a half-volume unmuted
state restores exactly 0.7. -/
theorem claim7_witness :
    (MediaRec.toggleMute (MediaRec.toggleMute (MediaRec.handleVolumeChange
      { volume := 1/2, isMuted := false, previousVolume := 1/2, elementVolume := 1/2 }
      (7/10)))).volume = 7/10
    ∧ (MediaRec.toggleMute (MediaRec.toggleMute (MediaRec.handleVolumeChange
      { volume := 1/2, isMuted := false, previousVolume := 1/2, elementVolume := 1/2 }
      (7/10)))).isMuted = false := by
  have h := claim7_volume_mute_roundtrip
    { volume := 1/2, isMuted := false, previousVolume := 1/2, elementVolume := 1/2 }
    (7/10) rfl (by norm_num) (by norm_num)
  exact ⟨h.1, h.2.2.1⟩

/-- C3: evaluation at the failing input — the audio-only recorder
`startRecording` invoked with no held stream under a permanently failing
acquire. After four scheduler cycles, four re-invocations of
`startRecording` have been scheduled (one per failed acquire), exceeding the
stated cap of one, no stream is held, the error message is set, and another
re-invocation is still pending, so the retry never terminates. In contrast
the combined recorder, whose retry is guarded on the acquired stream,
schedules zero re-invocations, surfaces the error and terminates. -/
theorem claim3_audio_retry_unbounded :
    (AudioRec.runStart (fun _ => false) 4
      { hasStream := false, attempt := 0, reinvocations := 0, pending := 1, errorSet := false }).reinvocations = 4
    ∧ ¬ (AudioRec.runStart (fun _ => false) 4
      { hasStream := false, attempt := 0, reinvocations := 0, pending := 1, errorSet := false }).reinvocations ≤ 1
    ∧ (AudioRec.runStart (fun _ => false) 4
      { hasStream := false, attempt := 0, reinvocations := 0, pending := 1, errorSet := false }).hasStream = false
    ∧ (AudioRec.runStart (fun _ => false) 4
      { hasStream := false, attempt := 0, reinvocations := 0, pending := 1, errorSet := false }).errorSet = true
    ∧ (AudioRec.runStart (fun _ => false) 4
      { hasStream := false, attempt := 0, reinvocations := 0, pending := 1, errorSet := false }).pending = 1
    ∧ (MediaRec.runStart (fun _ => false) 4
      { hasStream := false, attempt := 0, reinvocations := 0, pending := 1, errorSet := false }).reinvocations = 0
    ∧ (MediaRec.runStart (fun _ => false) 4
      { hasStream := false, attempt := 0, reinvocations := 0, pending := 1, errorSet := false }).errorSet = true
    ∧ (MediaRec.runStart (fun _ => false) 4
      { hasStream := false, attempt := 0, reinvocations := 0, pending := 1, errorSet := false }).pending = 0 := by
  decide

/-- C4 counterexample: in the webcam recorder a `togglePlayback` invocation
arriving while a previous play request is still settling is not ignored —
there is no busy flag — and it issues a second play request to the media
element. -/
theorem claim4_counterexample :
    (Webcam.togglePlaybackBegin
      { hasMedia := true, isPlaying := false, pendingPlay := true,
        playRequests := 1, pauseRequests := 0, playbackTimerActive := false }).playRequests = 2
    ∧ Webcam.togglePlaybackBegin
      { hasMedia := true, isPlaying := false, pendingPlay := true,
        playRequests := 1, pauseRequests := 0, playbackTimerActive := false }
      ≠ { hasMedia := true, isPlaying := false, pendingPlay := true,
          playRequests := 1, pauseRequests := 0, playbackTimerActive := false } := by
  decide

/-- C4 amended: the busy-flag serialization holds in the combined recorder —
any `togglePlayback` invocation arriving while `isPlaybackInProgress` is set
leaves the state unchanged, and a pair of overlapping invocations produces
exactly one play request and one state change — whereas the webcam recorder
`togglePlayback` has no guard and a second overlapping invocation issues
another play request. -/
theorem claim4_busy_flag_serializes (s : MediaRec.PlaybackState) (w : Webcam.PlaybackState)
    (hs : s.isPlaybackInProgress = false) (hm : s.hasMedia = true)
    (hp : s.isPlaying = false)
    (hw1 : w.hasMedia = true) (hw2 : w.isPlaying = false) (hw3 : w.pendingPlay = true) :
    (∀ s2 : MediaRec.PlaybackState, s2.isPlaybackInProgress = true →
      MediaRec.togglePlaybackBegin s2 = s2)
    ∧ MediaRec.togglePlaybackSettle (MediaRec.togglePlaybackBegin (MediaRec.togglePlaybackBegin s))
      = MediaRec.togglePlaybackSettle (MediaRec.togglePlaybackBegin s)
    ∧ (MediaRec.togglePlaybackSettle (MediaRec.togglePlaybackBegin
        (MediaRec.togglePlaybackBegin s))).playRequests = s.playRequests + 1
    ∧ (MediaRec.togglePlaybackSettle (MediaRec.togglePlaybackBegin
        (MediaRec.togglePlaybackBegin s))).isPlaying = true
    ∧ (Webcam.togglePlaybackBegin w).playRequests = w.playRequests + 1 := by
  have hguard : ∀ s2 : MediaRec.PlaybackState, s2.isPlaybackInProgress = true →
      MediaRec.togglePlaybackBegin s2 = s2 := by
    intro s2 h2
    unfold MediaRec.togglePlaybackBegin
    rw [if_pos h2]
  have hbegin : MediaRec.togglePlaybackBegin s =
      { s with isPlaybackInProgress := true, pendingOp := some true, playRequests := s.playRequests + 1 } := by
    unfold MediaRec.togglePlaybackBegin
    rw [if_neg (by simp [hs]), hm]
    simp [hp]
  refine ⟨hguard, ?_, ?_, ?_, ?_⟩
  · rw [hbegin, hguard _ rfl]
  · rw [hbegin, hguard _ rfl]
    simp [MediaRec.togglePlaybackSettle]
  · rw [hbegin, hguard _ rfl]
    simp [MediaRec.togglePlaybackSettle]
  · unfold Webcam.togglePlaybackBegin
    rw [hw1]
    simp [hw2]

/-- C4 witness: the amended serialization theorem instantiated at an idle
combined-recorder playback state and a webcam state with a settling play. -/
theorem claim4_witness :
    MediaRec.togglePlaybackSettle (MediaRec.togglePlaybackBegin (MediaRec.togglePlaybackBegin
      { hasMedia := true, isPlaying := false, isPlaybackInProgress := false,
        pendingOp := none, playRequests := 0, pauseRequests := 0, playbackTimerActive := false }))
      = MediaRec.togglePlaybackSettle (MediaRec.togglePlaybackBegin
      { hasMedia := true, isPlaying := false, isPlaybackInProgress := false,
        pendingOp := none, playRequests := 0, pauseRequests := 0, playbackTimerActive := false })
    ∧ (Webcam.togglePlaybackBegin
      { hasMedia := true, isPlaying := false, pendingPlay := true,
        playRequests := 1, pauseRequests := 0, playbackTimerActive := false }).playRequests = 1 + 1 := by
  have h := claim4_busy_flag_serializes
    { hasMedia := true, isPlaying := false, isPlaybackInProgress := false,
      pendingOp := none, playRequests := 0, pauseRequests := 0, playbackTimerActive := false }
    { hasMedia := true, isPlaying := false, pendingPlay := true,
      playRequests := 1, pauseRequests := 0, playbackTimerActive := false }
    rfl rfl rfl rfl rfl rfl
  exact ⟨h.2.1, h.2.2.2.2⟩

/-- C8: evaluation at the failing input — the audio-only recorder after the
call sequence acquire, `startRecording`, `resetRecording`. The reset leaves
the recording-clock interval running and the recording flag set (it never
stops an ongoing recording or clears timers), and its `startMicrophone` call
overwrites the held stream without stopping the prior tracks, leaving one
orphaned live stream; a second `resetRecording` changes the state again
(orphaning another stream), so reset is not idempotent there. In contrast
the combined recorder reset clears both timers, orphans no stream, and is
idempotent. -/
theorem claim8_audio_reset_leaks_resources :
    (AudioRec.resetRecording true (AudioRec.startRecordingRes (AudioRec.startMicrophone true
      { isRecording := false, clockTimerActive := false, playbackTimerActive := false,
        streamLive := false, orphanedStreams := 0, mediaUrlSet := false, isPlaying := false }))).clockTimerActive = true
    ∧ (AudioRec.resetRecording true (AudioRec.startRecordingRes (AudioRec.startMicrophone true
      { isRecording := false, clockTimerActive := false, playbackTimerActive := false,
        streamLive := false, orphanedStreams := 0, mediaUrlSet := false, isPlaying := false }))).isRecording = true
    ∧ (AudioRec.resetRecording true (AudioRec.startRecordingRes (AudioRec.startMicrophone true
      { isRecording := false, clockTimerActive := false, playbackTimerActive := false,
        streamLive := false, orphanedStreams := 0, mediaUrlSet := false, isPlaying := false }))).orphanedStreams = 1
    ∧ AudioRec.resetRecording true (AudioRec.resetRecording true (AudioRec.startRecordingRes
        (AudioRec.startMicrophone true
      { isRecording := false, clockTimerActive := false, playbackTimerActive := false,
        streamLive := false, orphanedStreams := 0, mediaUrlSet := false, isPlaying := false })))
      ≠ AudioRec.resetRecording true (AudioRec.startRecordingRes (AudioRec.startMicrophone true
      { isRecording := false, clockTimerActive := false, playbackTimerActive := false,
        streamLive := false, orphanedStreams := 0, mediaUrlSet := false, isPlaying := false }))
    ∧ (MediaRec.resetRecording true (MediaRec.startRecordingRes (MediaRec.startMediaStream true
      { isRecording := false, clockTimerActive := false, playbackTimerActive := false,
        streamLive := false, orphanedStreams := 0, mediaUrlSet := false, isPlaying := false }))).clockTimerActive = false
    ∧ (MediaRec.resetRecording true (MediaRec.startRecordingRes (MediaRec.startMediaStream true
      { isRecording := false, clockTimerActive := false, playbackTimerActive := false,
        streamLive := false, orphanedStreams := 0, mediaUrlSet := false, isPlaying := false }))).playbackTimerActive = false
    ∧ (MediaRec.resetRecording true (MediaRec.startRecordingRes (MediaRec.startMediaStream true
      { isRecording := false, clockTimerActive := false, playbackTimerActive := false,
        streamLive := false, orphanedStreams := 0, mediaUrlSet := false, isPlaying := false }))).orphanedStreams = 0
    ∧ MediaRec.resetRecording true (MediaRec.resetRecording true (MediaRec.startRecordingRes
        (MediaRec.startMediaStream true
      { isRecording := false, clockTimerActive := false, playbackTimerActive := false,
        streamLive := false, orphanedStreams := 0, mediaUrlSet := false, isPlaying := false })))
      = MediaRec.resetRecording true (MediaRec.startRecordingRes (MediaRec.startMediaStream true
      { isRecording := false, clockTimerActive := false, playbackTimerActive := false,
        streamLive := false, orphanedStreams := 0, mediaUrlSet := false, isPlaying := false })) := by
  decide

/-- C2 counterexample: whisper is supported and the WASM pipeline throws —
`transcribeAudioClient` swallows the error and returns the fixed failure
string, so `performTranscription` returns it directly and the
speech-recognition fallback is **not** invoked (second component `false`),
even though the fallback environment would have produced a transcript. -/
theorem claim2_counterexample :
    MediaRec.performTranscription true
      { initOk := true, libLoaded := true, pipelineOutcome := Except.error "pipeline crashed" }
      { speechApiAvailable := true, playOk := true, recognitionError := false,
        transcript := "hello world" }
      = (ClientTranscription.failureText, false)
    ∧ (ClientTranscription.failureText, false) ≠ ("hello world", true) := by
  constructor
  · rfl
  · simp [ClientTranscription.failureText]

/-- C2 amended: the adapter never throws past its boundary — every path of
the embedded functions returns a string — and the degradation order is:
the speech-recognition fallback is invoked exactly when whisper is
unsupported; a throwing WASM pipeline is swallowed inside
`transcribeAudioClient`, which yields the fixed failure string directly
without invoking the fallback; and when the fallback runs and itself fails
(recognition error, rejected playback, or empty transcript) the final text
is the fixed failure string. -/
theorem claim2_transcription_degradation (ws : Bool)
    (cenv : ClientTranscription.ClientEnv) (fenv : ClientTranscription.FallbackEnv)
    (hok : cenv.initOk = true) (hlib : cenv.libLoaded = true) :
    ((MediaRec.performTranscription ws cenv fenv).2 = !ws)
    ∧ (∀ msg, cenv.pipelineOutcome = Except.error msg →
        MediaRec.performTranscription true cenv fenv = (ClientTranscription.failureText, false))
    ∧ (fenv.speechApiAvailable = true → fenv.playOk = true → fenv.recognitionError = true →
        MediaRec.performTranscription false cenv fenv = (ClientTranscription.failureText, true))
    ∧ (fenv.speechApiAvailable = true → fenv.playOk = true → fenv.recognitionError = false →
        fenv.transcript = "" →
        MediaRec.performTranscription false cenv fenv = (ClientTranscription.failureText, true))
    ∧ (fenv.speechApiAvailable = true → fenv.playOk = true → fenv.recognitionError = false →
        fenv.transcript ≠ "" →
        MediaRec.performTranscription false cenv fenv = (fenv.transcript, true)) := by
  refine ⟨?_, ?_, ?_, ?_, ?_⟩
  · cases ws <;> simp [MediaRec.performTranscription]
  · intro msg hmsg
    simp [MediaRec.performTranscription, ClientTranscription.transcribeAudioClient,
      ClientTranscription.transcribeAudioClientBody, hok, hlib, hmsg]
  · intro h1 h2 h3
    simp [MediaRec.performTranscription, ClientTranscription.transcribeAudioFallback, h1, h2, h3]
  · intro h1 h2 h3 h4
    simp [MediaRec.performTranscription, ClientTranscription.transcribeAudioFallback,
      h1, h2, h3, h4]
  · intro h1 h2 h3 h4
    simp [MediaRec.performTranscription, ClientTranscription.transcribeAudioFallback,
      h1, h2, h3, h4]

/-- C2 witness: the amended degradation theorem instantiated with a throwing
pipeline and a failing speech recognition — the supported path returns the
fixed failure string without invoking the fallback, and the unsupported path
invokes the fallback and also ends at the fixed failure string. -/
theorem claim2_witness :
    MediaRec.performTranscription true
      { initOk := true, libLoaded := true, pipelineOutcome := Except.error "boom" }
      { speechApiAvailable := true, playOk := true, recognitionError := true, transcript := "" }
      = (ClientTranscription.failureText, false)
    ∧ MediaRec.performTranscription false
      { initOk := true, libLoaded := true, pipelineOutcome := Except.error "boom" }
      { speechApiAvailable := true, playOk := true, recognitionError := true, transcript := "" }
      = (ClientTranscription.failureText, true) := by
  have h := claim2_transcription_degradation true
    { initOk := true, libLoaded := true, pipelineOutcome := Except.error "boom" }
    { speechApiAvailable := true, playOk := true, recognitionError := true, transcript := "" }
    rfl rfl
  have h2 := claim2_transcription_degradation false
    { initOk := true, libLoaded := true, pipelineOutcome := Except.error "boom" }
    { speechApiAvailable := true, playOk := true, recognitionError := true, transcript := "" }
    rfl rfl
  exact ⟨h.2.1 "boom" rfl, h2.2.2.1 rfl rfl rfl⟩

/-- C9 counterexample: the deterministic part (random factor 0) of the pace
metric of the combined recorder has fully saturated once the elapsed time
passes 30 seconds, yet it equals 90, never 100 — so the deterministic part
does not saturate at 100. The clarity and confidence deterministic parts
likewise plateau at 90. -/
theorem claim9_counterexample :
    (MediaRec.updateAnalysis MediaRec.MediaType.audio 300 0).pace = 90
    ∧ (MediaRec.updateAnalysis MediaRec.MediaType.audio 30000 0).pace = 90
    ∧ (MediaRec.updateAnalysis MediaRec.MediaType.audio 30000 0).clarity = 90
    ∧ (MediaRec.updateAnalysis MediaRec.MediaType.audio 30000 0).confidence = 90
    ∧ (90 : ℚ) ≠ 100 := by
  norm_num [MediaRec.updateAnalysis, MediaRec.timeBasedFactor]

/-- C9 amended: every emitted analysis sample of the combined recorder has
each field in the range 0 to 100 given the sampled random factor lies in its
actual range (0 to one tenth), the video-only fields are zero in audio mode,
and the deterministic part of each field is non-decreasing in the elapsed
recording time and capped at 100 — though not every field reaches 100. The
webcam recorder sample satisfies the same bounds (its random samples lie in
0 to 1) and deterministic monotonicity. -/
theorem claim9_analysis_bounded_monotone (mode : MediaRec.MediaType)
    (t t2 r r1 r2 r3 r4 : ℚ)
    (ht : 0 ≤ t) (ht2 : t ≤ t2) (hr0 : 0 ≤ r) (hr1 : r ≤ 1/10)
    (hr10 : 0 ≤ r1) (hr11 : r1 ≤ 1) (hr20 : 0 ≤ r2) (hr21 : r2 ≤ 1)
    (hr30 : 0 ≤ r3) (hr31 : r3 ≤ 1) (hr40 : 0 ≤ r4) (hr41 : r4 ≤ 1) :
    (0 ≤ (MediaRec.updateAnalysis mode t r).volume
      ∧ (MediaRec.updateAnalysis mode t r).volume ≤ 100)
    ∧ (0 ≤ (MediaRec.updateAnalysis mode t r).pace
      ∧ (MediaRec.updateAnalysis mode t r).pace ≤ 100)
    ∧ (0 ≤ (MediaRec.updateAnalysis mode t r).clarity
      ∧ (MediaRec.updateAnalysis mode t r).clarity ≤ 100)
    ∧ (0 ≤ (MediaRec.updateAnalysis mode t r).confidence
      ∧ (MediaRec.updateAnalysis mode t r).confidence ≤ 100)
    ∧ (0 ≤ (MediaRec.updateAnalysis mode t r).facialExpressions
      ∧ (MediaRec.updateAnalysis mode t r).facialExpressions ≤ 100)
    ∧ (0 ≤ (MediaRec.updateAnalysis mode t r).eyeContact
      ∧ (MediaRec.updateAnalysis mode t r).eyeContact ≤ 100)
    ∧ (mode = MediaRec.MediaType.audio →
        (MediaRec.updateAnalysis mode t r).facialExpressions = 0
        ∧ (MediaRec.updateAnalysis mode t r).eyeContact = 0)
    ∧ (MediaRec.updateAnalysis mode t 0).volume ≤ (MediaRec.updateAnalysis mode t2 0).volume
    ∧ (MediaRec.updateAnalysis mode t 0).pace ≤ (MediaRec.updateAnalysis mode t2 0).pace
    ∧ (MediaRec.updateAnalysis mode t 0).clarity ≤ (MediaRec.updateAnalysis mode t2 0).clarity
    ∧ (MediaRec.updateAnalysis mode t 0).confidence ≤ (MediaRec.updateAnalysis mode t2 0).confidence
    ∧ (MediaRec.updateAnalysis mode t 0).facialExpressions
        ≤ (MediaRec.updateAnalysis mode t2 0).facialExpressions
    ∧ (MediaRec.updateAnalysis mode t 0).eyeContact ≤ (MediaRec.updateAnalysis mode t2 0).eyeContact
    ∧ (0 ≤ (Webcam.analyzeVideo t r1 r2 r3 r4).volume
      ∧ (Webcam.analyzeVideo t r1 r2 r3 r4).volume ≤ 100)
    ∧ (0 ≤ (Webcam.analyzeVideo t r1 r2 r3 r4).pace
      ∧ (Webcam.analyzeVideo t r1 r2 r3 r4).pace ≤ 100)
    ∧ (0 ≤ (Webcam.analyzeVideo t r1 r2 r3 r4).clarity
      ∧ (Webcam.analyzeVideo t r1 r2 r3 r4).clarity ≤ 100)
    ∧ (0 ≤ (Webcam.analyzeVideo t r1 r2 r3 r4).confidence
      ∧ (Webcam.analyzeVideo t r1 r2 r3 r4).confidence ≤ 100)
    ∧ (0 ≤ (Webcam.analyzeVideo t r1 r2 r3 r4).facialExpressions
      ∧ (Webcam.analyzeVideo t r1 r2 r3 r4).facialExpressions ≤ 100)
    ∧ (0 ≤ (Webcam.analyzeVideo t r1 r2 r3 r4).eyeContact
      ∧ (Webcam.analyzeVideo t r1 r2 r3 r4).eyeContact ≤ 100)
    ∧ (Webcam.analyzeVideo t 0 0 0 0).volume ≤ (Webcam.analyzeVideo t2 0 0 0 0).volume
    ∧ (Webcam.analyzeVideo t 0 0 0 0).pace ≤ (Webcam.analyzeVideo t2 0 0 0 0).pace
    ∧ (Webcam.analyzeVideo t 0 0 0 0).clarity ≤ (Webcam.analyzeVideo t2 0 0 0 0).clarity
    ∧ (Webcam.analyzeVideo t 0 0 0 0).confidence ≤ (Webcam.analyzeVideo t2 0 0 0 0).confidence
    ∧ (Webcam.analyzeVideo t 0 0 0 0).facialExpressions
        ≤ (Webcam.analyzeVideo t2 0 0 0 0).facialExpressions
    ∧ (Webcam.analyzeVideo t 0 0 0 0).eyeContact ≤ (Webcam.analyzeVideo t2 0 0 0 0).eyeContact := by
  have htf0 : 0 ≤ MediaRec.timeBasedFactor t :=
    le_min (by linarith) (by norm_num)
  have htfm : MediaRec.timeBasedFactor t ≤ MediaRec.timeBasedFactor t2 :=
    min_le_min (by linarith) le_rfl
  have h40 : MediaRec.timeBasedFactor t * 40 ≤ MediaRec.timeBasedFactor t2 * 40 :=
    mul_le_mul_of_nonneg_right htfm (by norm_num)
  have h20 : MediaRec.timeBasedFactor t * 20 ≤ MediaRec.timeBasedFactor t2 * 20 :=
    mul_le_mul_of_nonneg_right htfm (by norm_num)
  have h50 : MediaRec.timeBasedFactor t * 50 ≤ MediaRec.timeBasedFactor t2 * 50 :=
    mul_le_mul_of_nonneg_right htfm (by norm_num)
  have h30 : MediaRec.timeBasedFactor t * 30 ≤ MediaRec.timeBasedFactor t2 * 30 :=
    mul_le_mul_of_nonneg_right htfm (by norm_num)
  have m1 : 0 ≤ t * (3 / 2) := mul_nonneg ht (by norm_num)
  have m2 : 0 ≤ r * 20 := mul_nonneg hr0 (by norm_num)
  have m4 : 0 ≤ r * 10 := mul_nonneg hr0 (by norm_num)
  have m3 : 0 ≤ MediaRec.timeBasedFactor t * 40 := mul_nonneg htf0 (by norm_num)
  have m5 : 0 ≤ MediaRec.timeBasedFactor t * 20 := mul_nonneg htf0 (by norm_num)
  have m6 : 0 ≤ MediaRec.timeBasedFactor t * 50 := mul_nonneg htf0 (by norm_num)
  have m7 : 0 ≤ MediaRec.timeBasedFactor t * 30 := mul_nonneg htf0 (by norm_num)
  have w1 : 0 ≤ r1 * 50 := mul_nonneg hr10 (by norm_num)
  have w3 : 0 ≤ r2 * 40 := mul_nonneg hr20 (by norm_num)
  have w4 : 0 ≤ r3 * 40 := mul_nonneg hr30 (by norm_num)
  have w5 : 0 ≤ r4 * 30 := mul_nonneg hr40 (by norm_num)
  simp only [MediaRec.updateAnalysis, Webcam.analyzeVideo]
  refine ⟨⟨?_, min_le_right _ _⟩, ⟨?_, min_le_right _ _⟩, ⟨?_, min_le_right _ _⟩,
    ⟨?_, min_le_right _ _⟩, ⟨?_, ?_⟩, ⟨?_, ?_⟩, ?_, ?_, ?_, ?_, ?_, ?_, ?_,
    ⟨?_, min_le_right _ _⟩, ⟨?_, min_le_right _ _⟩, ⟨?_, min_le_right _ _⟩,
    ⟨?_, min_le_right _ _⟩, ⟨?_, min_le_right _ _⟩, ⟨?_, min_le_right _ _⟩,
    ?_, ?_, ?_, ?_, ?_, ?_⟩
  · exact le_min (by linarith) (by norm_num)
  · exact le_min (by linarith) (by norm_num)
  · exact le_min (by linarith) (by norm_num)
  · exact le_min (by linarith) (by norm_num)
  · by_cases hv : mode = MediaRec.MediaType.video
    · simp only [hv, if_pos]
      exact le_min (by linarith) (by norm_num)
    · simp [hv]
  · by_cases hv : mode = MediaRec.MediaType.video
    · simp only [hv, if_pos]
      exact min_le_right _ _
    · simp [hv]
  · by_cases hv : mode = MediaRec.MediaType.video
    · simp only [hv, if_pos]
      exact le_min (by linarith) (by norm_num)
    · simp [hv]
  · by_cases hv : mode = MediaRec.MediaType.video
    · simp only [hv, if_pos]
      exact min_le_right _ _
    · simp [hv]
  · intro hmode
    subst hmode
    simp
  · exact min_le_min (by linarith) le_rfl
  · exact min_le_min (by linarith) le_rfl
  · exact min_le_min (by linarith) le_rfl
  · exact min_le_min (by linarith) le_rfl
  · by_cases hv : mode = MediaRec.MediaType.video
    · simp only [hv, if_pos]
      exact min_le_min (by linarith) le_rfl
    · simp [hv]
  · by_cases hv : mode = MediaRec.MediaType.video
    · simp only [hv, if_pos]
      exact min_le_min (by linarith) le_rfl
    · simp [hv]
  · exact le_min (by linarith) (by norm_num)
  · exact le_min (by linarith) (by norm_num)
  · exact le_min (by linarith) (by norm_num)
  · exact le_min (by linarith) (by norm_num)
  · exact le_min (by linarith) (by norm_num)
  · exact le_min (by linarith) (by norm_num)
  · exact min_le_min (by linarith) le_rfl
  · exact min_le_min (by linarith) le_rfl
  · exact min_le_min (by linarith) le_rfl
  · exact min_le_min (by linarith) le_rfl
  · exact min_le_min (by linarith) le_rfl
  · exact min_le_min (by linarith) le_rfl

/-- C9 witness: the amended analysis theorem instantiated in audio mode at
3 seconds with random factor one twentieth (and webcam samples one half). -/
theorem claim9_witness :
    0 ≤ (MediaRec.updateAnalysis MediaRec.MediaType.audio 3 (1/20)).volume
    ∧ (MediaRec.updateAnalysis MediaRec.MediaType.audio 3 (1/20)).volume ≤ 100
    ∧ (MediaRec.updateAnalysis MediaRec.MediaType.audio 3 (1/20)).facialExpressions = 0
    ∧ (MediaRec.updateAnalysis MediaRec.MediaType.audio 3 0).pace
        ≤ (MediaRec.updateAnalysis MediaRec.MediaType.audio 30 0).pace := by
  have h := claim9_analysis_bounded_monotone MediaRec.MediaType.audio
    3 30 (1/20) (1/2) (1/2) (1/2) (1/2)
    (by norm_num) (by norm_num) (by norm_num) (by norm_num)
    (by norm_num) (by norm_num) (by norm_num) (by norm_num)
    (by norm_num) (by norm_num) (by norm_num) (by norm_num)
  exact ⟨h.1.1, h.1.2, (h.2.2.2.2.2.2.1 rfl).1, h.2.2.2.2.2.2.2.2.1⟩

/-- C10 counterexample: in a browser where the remote script load succeeds and
defines the transformers global, the first `initWhisper` call returns promise
0 and caches it in `loadPromise`, but the second call returns a **fresh**
already-resolved promise (`Promise.resolve()`, identifier 1), not the same
promise object — refuting that every call after the first returns the same
promise. -/
theorem claim10_counterexample :
    (ClientTranscription.initWhisper
      { inBrowser := true, transformersAlreadyGlobal := false,
        scriptLoads := true, transformersGlobalAfterLoad := true }
      ClientTranscription.initialWhisperState).2
      = (0, ClientTranscription.POutcome.resolved)
    ∧ (ClientTranscription.initWhisper
      { inBrowser := true, transformersAlreadyGlobal := false,
        scriptLoads := true, transformersGlobalAfterLoad := true }
      ClientTranscription.initialWhisperState).1.loadPromise
      = some (0, ClientTranscription.POutcome.resolved)
    ∧ (ClientTranscription.initWhisper
        { inBrowser := true, transformersAlreadyGlobal := false,
          scriptLoads := true, transformersGlobalAfterLoad := true }
        (ClientTranscription.initWhisper
          { inBrowser := true, transformersAlreadyGlobal := false,
            scriptLoads := true, transformersGlobalAfterLoad := true }
          ClientTranscription.initialWhisperState).1).2
      = (1, ClientTranscription.POutcome.resolved)
    ∧ (1 : Nat) ≠ 0 := by
  decide

/-- C10 amended: `loadPromise`, once set, is never cleared or replaced; while
the module is not in the fully loaded state every later call returns exactly
the cached promise with no state change — in particular after a failed first
load every subsequent call returns the same rejected promise and the remote
script load is never re-attempted — but once the load has succeeded (loaded
flag and library handle set) each call returns a fresh already-resolved
promise rather than the same object, likewise without re-attempting the
script load. -/
theorem claim10_loadPromise_cached (env : ClientTranscription.WhisperEnv)
    (s : ClientTranscription.WhisperState) (p : Nat × ClientTranscription.POutcome) :
    (s.loadPromise = some p → (ClientTranscription.initWhisper env s).1.loadPromise = some p)
    ∧ (s.loadPromise = some p → s.isWhisperLoaded = false →
        ClientTranscription.initWhisper env s = (s, p))
    ∧ (s.isWhisperLoaded = true → s.hasTransformersLib = true →
        ClientTranscription.initWhisper env s =
          ({ s with nextPromiseId := s.nextPromiseId + 1 },
            (s.nextPromiseId, ClientTranscription.POutcome.resolved)))
    ∧ (s.loadPromise = some p →
        (ClientTranscription.initWhisper env s).1.scriptLoadAttempts = s.scriptLoadAttempts) := by
  refine ⟨?_, ?_, ?_, ?_⟩
  · intro hp
    unfold ClientTranscription.initWhisper
    by_cases hl : s.isWhisperLoaded && s.hasTransformersLib
    · simp [hl, hp]
    · simp [hl, hp]
  · intro hp hnl
    unfold ClientTranscription.initWhisper
    simp [hnl, hp]
  · intro h1 h2
    unfold ClientTranscription.initWhisper
    simp [h1, h2]
  · intro hp
    unfold ClientTranscription.initWhisper
    by_cases hl : s.isWhisperLoaded && s.hasTransformersLib
    · simp [hl, hp]
    · simp [hl, hp]

/-- C10 witness: after a first call whose script load fails, the module is
not loaded and the rejected promise 0 is cached; a second call under a now
succeeding environment still returns the same rejected promise 0 unchanged
and attempts no new script load. -/
theorem claim10_witness :
    ClientTranscription.initWhisper
      { inBrowser := true, transformersAlreadyGlobal := false,
        scriptLoads := true, transformersGlobalAfterLoad := true }
      { isWhisperLoaded := false, hasTransformersLib := false,
        loadPromise := some (0, ClientTranscription.POutcome.rejected),
        scriptLoadAttempts := 1, nextPromiseId := 1 }
      = ({ isWhisperLoaded := false, hasTransformersLib := false,
           loadPromise := some (0, ClientTranscription.POutcome.rejected),
           scriptLoadAttempts := 1, nextPromiseId := 1 },
         (0, ClientTranscription.POutcome.rejected)) := by
  exact (claim10_loadPromise_cached
    { inBrowser := true, transformersAlreadyGlobal := false,
      scriptLoads := true, transformersGlobalAfterLoad := true }
    { isWhisperLoaded := false, hasTransformersLib := false,
      loadPromise := some (0, ClientTranscription.POutcome.rejected),
      scriptLoadAttempts := 1, nextPromiseId := 1 }
    (0, ClientTranscription.POutcome.rejected)).2.1 rfl rfl
